import Mathlib

/-!
# Verification of the boz-ripper coordination subsystem

A shallow embedding in Lean 4 of the parts of the boz-ripper server and
agent that the specification's claims are about: the job queue and approval
chain, the worker manager (selection and staleness failover), the agent's
rip-job execution, the preview pipeline (episode matching, extras naming,
finalization) and the filename sanitizer.

Python semantics that matter for these claims are modelled explicitly:
truthiness of optional integers and strings, positional-argument binding
(a call with more positional arguments than the callee's parameters raises
`TypeError`), and attribute lookup on service objects (accessing a method
that does not exist raises `AttributeError`).  Errors that propagate out of
a request handler surface as an HTTP 500 response.
-/

namespace BozRipper

/-- A Python runtime error raised by the embedded code. -/
inductive PyErr where
  | typeError
  | attributeError
deriving DecidableEq, Repr

/-- Python truthiness of an optional integer: `None` and `0` are falsy. -/
def pyTruthyInt : Option Int → Bool
  | none => false
  | some n => n ≠ 0

/-- Python truthiness of an optional string: `None` and `""` are falsy. -/
def pyTruthyStr : Option String → Bool
  | none => false
  | some s => s ≠ ""

/-- Python `a or b` for an optional string `a` with default `b`. -/
def pyOrStr (a : Option String) (b : String) : String :=
  if pyTruthyStr a then a.getD b else b

/-- A dynamically typed Python value (the subset these modules pass around). -/
inductive PyVal where
  | pstr (s : String)
  | pint (n : Int)
deriving DecidableEq, Repr

/-- Python `==` between a value and a `str`-enum member (which compares as
its underlying string). -/
def PyVal.eqStr : PyVal → String → Bool
  | .pstr t, s => t = s
  | .pint _, _ => false

/-! ## Data model (`boz_server.models`) -/

/-- `models/job.py` `JobStatus`. -/
inductive JobStatus where
  | pending | queued | assigned | running | completed | failed | cancelled
deriving DecidableEq, Repr

/-- `models/job.py` `JobType`. -/
inductive JobType where
  | rip | transcode | organize
deriving DecidableEq, Repr

/-- `models/disc.py` `PreviewStatus`. -/
inductive PreviewStatus where
  | pending | approved | rejected
deriving DecidableEq, Repr

/-- `models/disc.py` `MediaType`. -/
inductive MediaType where
  | movie | tv_show | unknown
deriving DecidableEq, Repr

/-- `models/worker.py` `WorkerStatus`. -/
inductive WorkerStatus where
  | available | busy | offline
deriving DecidableEq, Repr

/-- `models/disc.py` `Title` (the fields the claims touch). -/
structure Title where
  index : Int
  name : String
  duration_seconds : Int
  selected : Bool := false
  is_extra : Bool := false
  proposed_filename : Option String := none
  proposed_path : Option String := none
  episode_number : Option Int := none
  episode_title : Option String := none
  confidence_score : ℚ := 0
deriving DecidableEq, Repr

/-- `models/disc.py` `Disc` (the fields the claims touch). -/
structure Disc where
  disc_id : String
  disc_name : String
  titles : List Title := []
  media_type : MediaType := .unknown
  preview_status : PreviewStatus := .pending
  starting_episode_number : Option Int := none
deriving DecidableEq, Repr

/-- `models/tv_show.py` `TVEpisode`. -/
structure TVEpisode where
  episode_number : Int
  episode_name : String
  season_number : Int
  runtime : Option Int := none
deriving DecidableEq, Repr

/-- `models/tv_show.py` `TVSeason`. -/
structure TVSeason where
  season_id : String
  show_name : String
  season_number : Int
  episodes : List TVEpisode := []
  last_episode_assigned : Int := 0
  last_disc_name : Option String := none
deriving DecidableEq, Repr

/-- `TVSeason.next_episode_number` property. -/
def TVSeason.next_episode_number (s : TVSeason) : Int :=
  s.last_episode_assigned + 1

/-- `TVSeason.mark_episode_assigned`. -/
def TVSeason.mark_episode_assigned (s : TVSeason) (episode_number : Int) : TVSeason :=
  if episode_number > s.last_episode_assigned then
    { s with last_episode_assigned := episode_number }
  else s

/-- `TVSeason.get_episode`: first episode whose number matches. -/
def TVSeason.get_episode (s : TVSeason) (episode_number : Int) : Option TVEpisode :=
  s.episodes.find? (fun e => e.episode_number = episode_number)

/-- `models/job.py` `Job` (the fields the claims touch).  Timestamps are
abstract instants (`Nat`). -/
structure Job where
  job_id : String
  job_type : JobType
  status : JobStatus := .pending
  priority : Int := 0
  disc_id : Option String := none
  output_name : Option String := none
  output_file : Option String := none
  preset : Option String := none
  assigned_agent_id : Option String := none
  assigned_at : Option Nat := none
  requires_approval : Bool := false
  progress : ℚ := 0
  error : Option String := none
  started_at : Option Nat := none
  completed_at : Option Nat := none
deriving DecidableEq, Repr

/-- `models/worker.py` `WorkerCapabilities`. -/
structure WorkerCapabilities where
  nvenc : Bool := false
  qsv : Bool := false
  vaapi : Bool := false
  hevc : Bool := false
  av1 : Bool := false
  cpu_threads : Nat := 4
  max_concurrent : Nat := 2
deriving DecidableEq, Repr

/-- `models/worker.py` `Worker` (the fields the claims touch). -/
structure Worker where
  worker_id : String
  agent_id : Option String := none
  capabilities : WorkerCapabilities := {}
  priority : Int := 50
  enabled : Bool := true
  status : WorkerStatus := .available
  current_jobs : List String := []
  last_heartbeat : Int := 0
  avg_transcode_time_seconds : ℚ := 0
deriving DecidableEq, Repr

/-- `Worker.is_available`. -/
def Worker.is_available (w : Worker) : Bool :=
  w.enabled && !(w.status = .offline) &&
    w.current_jobs.length < w.capabilities.max_concurrent

/-- `Worker.has_gpu`. -/
def Worker.has_gpu (w : Worker) : Bool :=
  w.capabilities.nvenc || w.capabilities.qsv || w.capabilities.vaapi

/-! ## Stable sorting helper

Python's `list.sort` / `sorted` and the store's `ORDER BY` are stable with
respect to the incoming order; `insertStable`/`sortStable` implement a
stable insertion sort parameterised by a strict "key less than" test. -/

/-- Insert `x` after every element strictly less than it (stable). -/
def insertStable (lt : α → α → Bool) (x : α) : List α → List α
  | [] => [x]
  | y :: ys => if lt y x then y :: insertStable lt x ys else x :: y :: ys

/-- Stable insertion sort by a strict comparison on keys. -/
def sortStable (lt : α → α → Bool) : List α → List α
  | [] => []
  | x :: xs => insertStable lt x (sortStable lt xs)

theorem mem_insertStable (lt : α → α → Bool) (x a : α) :
    ∀ l : List α, a ∈ insertStable lt x l ↔ a = x ∨ a ∈ l := by
  intro l
  induction l with
  | nil => simp [insertStable]
  | cons y ys ih =>
    simp only [insertStable]
    by_cases h : lt y x
    · simp [h, ih, List.mem_cons]
      tauto
    · simp [h, List.mem_cons]

theorem mem_sortStable (lt : α → α → Bool) (a : α) :
    ∀ l : List α, a ∈ sortStable lt l ↔ a ∈ l := by
  intro l
  induction l with
  | nil => simp [sortStable]
  | cons x xs ih =>
    simp [sortStable, mem_insertStable, ih, List.mem_cons]

theorem length_insertStable (lt : α → α → Bool) (x : α) :
    ∀ l : List α, (insertStable lt x l).length = l.length + 1 := by
  intro l
  induction l with
  | nil => simp [insertStable]
  | cons y ys ih =>
    simp only [insertStable]
    by_cases h : lt y x <;> simp [h, ih]

theorem length_sortStable (lt : α → α → Bool) :
    ∀ l : List α, (sortStable lt l).length = l.length := by
  intro l
  induction l with
  | nil => rfl
  | cons x xs ih => simp [sortStable, length_insertStable, ih]

theorem sortStable_ne_nil (lt : α → α → Bool) (l : List α) (h : l ≠ []) :
    sortStable lt l ≠ [] := by
  intro hcon
  have := length_sortStable lt l
  rw [hcon] at this
  simp at this
  exact h (List.length_eq_zero.mp this.symm)

/-! ## `services/media_namer.py` -/

namespace MediaNamer

/-- The characters removed by `sanitize_filename`
  (regex `[<>:"/\\|?*]`). -/
def invalidChars : List Char := ['<', '>', ':', '"', '/', '\\', '|', '?', '*']

/-- Python regex `\s` / `str.strip` whitespace (ASCII subset). -/
def isPySpace (c : Char) : Bool :=
  c = ' ' || c = '\t' || c = '\n' || c = '\r' || c = '\x0b' || c = '\x0c'

/-- Keep one character per maximal whitespace run (the run's last char). -/
def collapseRuns : List Char → List Char
  | [] => []
  | [c] => [c]
  | c₁ :: c₂ :: rest =>
    if isPySpace c₁ && isPySpace c₂ then collapseRuns (c₂ :: rest)
    else c₁ :: collapseRuns (c₂ :: rest)

/-- Replace a whitespace character by a plain space. -/
def toSpace (c : Char) : Char := if isPySpace c then ' ' else c

/-- Python `str.strip()`: drop leading and trailing whitespace. -/
def stripChars (l : List Char) : List Char :=
  (((l.dropWhile isPySpace).reverse.dropWhile isPySpace)).reverse

/-- `MediaNamer.sanitize_filename`: remove the invalid characters, replace
each maximal whitespace run by a single space (regex `\s+` → `" "`), then
strip leading/trailing whitespace. -/
def sanitize_filename (name : String) : String :=
  String.mk (stripChars ((collapseRuns
    (name.toList.filter (fun c => !(invalidChars.contains c)))).map toSpace))

/-- `MediaNamer.generate_movie_filename`. -/
def generate_movie_filename (movie_name : String) (year : Option Int) : String :=
  let sanitized_name := sanitize_filename movie_name
  if pyTruthyInt year then
    sanitized_name ++ " (" ++ toString (year.getD 0) ++ ").mkv"
  else
    sanitized_name ++ ".mkv"

/-- Python `f"Season {n:02d}"`-style zero padding of an integer to width 2. -/
def pad2 (n : Int) : String :=
  if 0 ≤ n ∧ n < 10 then "0" ++ toString n else toString n

/-- `sanitize_filename` applied to a dynamically typed argument: Python's
`re.sub` raises `TypeError` when given a non-string. -/
def sanitizePy : PyVal → Except PyErr String
  | .pstr s => .ok (sanitize_filename s)
  | .pint _ => .error .typeError

/-- `MediaNamer.generate_extra_path`.  The first three parameters are
dynamically typed, exactly as in Python, because one caller passes them in
the wrong positions; `media_type` is compared against the `str`-enum member
`MediaType.TV_SHOW` (value `"tv_show"`). -/
def generate_extra_path (base_path : String)
    (media_name extra_name media_type : PyVal)
    (year : Option Int) (season_number : Option Int) : Except PyErr String := do
  let sanitized_media ← sanitizePy media_name
  let sanitized_extra ← sanitizePy extra_name
  if media_type.eqStr "tv_show" && season_number.isSome then
    let season_folder := "Season " ++ pad2 (season_number.getD 0)
    return base_path ++ "/" ++ sanitized_media ++ "/" ++ season_folder ++
      "/Extras/" ++ sanitized_extra ++ ".mkv"
  else
    let folder_name :=
      if pyTruthyInt year then
        sanitized_media ++ " (" ++ toString (year.getD 0) ++ ")"
      else sanitized_media
    return base_path ++ "/" ++ folder_name ++ "/Extras/" ++ sanitized_extra ++ ".mkv"

end MediaNamer

/-! ## `repositories/job_repository.py` -/

namespace JobRepository

/-- Parameters of `JobRepository.approve_job` (beyond `self`), as declared
at `repositories/job_repository.py:232`. -/
def approve_job_params : List String := ["job_id", "agent_id", "preset"]

/-- Body of `JobRepository.approve_job`: guard on
`status == PENDING and requires_approval`, then set `preset`,
`assigned_agent_id`, `requires_approval=False`, `status=ASSIGNED`,
`assigned_at=now`. -/
def approve_job (now : Nat) (job : Option Job) (agent_id preset : String) :
    Option Job :=
  match job with
  | none => none
  | some j =>
    if j.status ≠ JobStatus.pending ∨ j.requires_approval = false then none
    else
      some { j with
        preset := some preset
        assigned_agent_id := some agent_id
        requires_approval := false
        status := JobStatus.assigned
        assigned_at := some now }

/-- `JobRepository.update_status`: unconditionally writes the new status,
optionally progress / error / output file (the latter two only when truthy),
and maintains `started_at` / `completed_at`. -/
def update_status (now : Nat) (j : Job) (status : JobStatus)
    (progress : Option ℚ) (error : Option String) (output_file : Option String) :
    Job :=
  let j := { j with status := status }
  let j := match progress with
    | some p => { j with progress := p }
    | none => j
  let j := if pyTruthyStr error then { j with error := error } else j
  let j := if pyTruthyStr output_file then { j with output_file := output_file } else j
  if status = JobStatus.running && j.started_at.isNone then
    { j with started_at := some now }
  else if status = JobStatus.completed || status = JobStatus.failed then
    { j with completed_at := some now }
  else j

end JobRepository

/-! ## `services/job_queue_db.py` -/

namespace JobQueue

/-- The methods defined on `services/job_queue_db.py` `JobQueue`.  Python
resolves `self._job_queue.<name>` against this set; a missing name raises
`AttributeError`. -/
def method_names : List String :=
  ["__init__", "_get_session", "add_disc", "remove_disc", "get_disc",
   "get_disc_by_agent_drive", "get_all_discs", "update_disc",
   "get_pending_previews", "create_job", "create_rip_job",
   "create_transcode_job", "get_job", "get_all_jobs", "get_pending_jobs",
   "get_jobs_for_agent", "assign_job", "update_job", "get_next_rip_job",
   "get_next_transcode_job", "get_queue_stats", "get_jobs_awaiting_approval",
   "approve_job", "update_job_thumbnails"]

/-- Number of positional arguments `JobQueue.approve_job` passes to
`repo.approve_job` at `services/job_queue_db.py:257`:
`(job_id, agent_id, preset, output_name)`. -/
def approve_job_call_arg_count : Nat := 4

/-- `JobQueue.approve_job`: delegates to `JobRepository.approve_job`.
Python binds the call's positional arguments against the callee's
parameters; passing more arguments than there are parameters raises
`TypeError` before the body runs. -/
def approve_job (now : Nat) (job : Option Job) (agent_id preset : String)
    (output_name : Option String) : Except PyErr (Option Job) :=
  if approve_job_call_arg_count = JobRepository.approve_job_params.length then
    .ok (JobRepository.approve_job now job agent_id preset)
  else
    .error .typeError

end JobQueue

/-! ## `api/jobs.py` -/

/-- Outcome of an HTTP handler: success, an `HTTPException` with status
code and detail, or a 500 from an unhandled exception. -/
inductive ApiResp where
  | ok
  | err (code : Nat) (detail : String)
  | serverError
deriving DecidableEq, Repr

namespace JobsApi

/-- `POST /api/jobs/{job_id}/approve` (`api/jobs.py:204`): validates the
job and worker, resolves `agent_id = worker.agent_id or request.worker_id`,
then calls `job_queue.approve_job`.  Returns the response together with the
job's resulting persisted state. -/
def approve_job (now : Nat) (job : Option Job) (worker : Option Worker)
    (preset : String) : ApiResp × Option Job :=
  match job with
  | none => (.err 404 "Job not found", none)
  | some j =>
    if j.requires_approval = false then
      (.err 400 "Job does not require approval", some j)
    else if j.status ≠ JobStatus.pending then
      (.err 400 "Job is not pending", some j)
    else
      match worker with
      | none => (.err 404 "Worker not found", some j)
      | some w =>
        let agent_id := pyOrStr w.agent_id w.worker_id
        match JobQueue.approve_job now (some j) agent_id preset none with
        | .error _ => (.serverError, some j)
        | .ok none => (.err 400 "Failed to approve job", some j)
        | .ok (some j') => (.ok, some j')

/-- `POST /api/jobs/{job_id}/cancel` (`api/jobs.py:178`): 404 when the job
does not exist, 400 when its status is `COMPLETED` or `CANCELLED`, else
update the job to `CANCELLED`. -/
def cancel_job (now : Nat) (job : Option Job) : ApiResp × Option Job :=
  match job with
  | none => (.err 404 "Job not found", none)
  | some j =>
    if j.status = JobStatus.completed ∨ j.status = JobStatus.cancelled then
      (.err 400 "Job already finished", some j)
    else
      (.ok, some (JobRepository.update_status now j JobStatus.cancelled none none none))

end JobsApi

/-! ## `services/episode_matcher.py` -/

namespace EpisodeMatcher

def HIGH_CONFIDENCE : ℚ := 95/100
def MEDIUM_CONFIDENCE : ℚ := 70/100
def LOW_CONFIDENCE : ℚ := 40/100
def VERY_LOW_CONFIDENCE : ℚ := 30/100

/-- The confidence `match_episodes` gives a title paired with episode
metadata (`episode_matcher.py:79-131`): duration-based tiers when
`episode.runtime` is truthy, otherwise `LOW_CONFIDENCE`. -/
def duration_confidence (ep : TVEpisode) (actual_seconds : Int) : ℚ :=
  if pyTruthyInt ep.runtime then
    let expected_seconds : ℚ := (ep.runtime.getD 0 : Int) * 60
    let duration_diff_seconds : ℚ := |(actual_seconds : ℚ) - expected_seconds|
    let duration_diff_percent : ℚ :=
      if expected_seconds > 0 then duration_diff_seconds / expected_seconds else 1
    if duration_diff_seconds ≤ 120 ∨ duration_diff_percent ≤ 10/100 then
      HIGH_CONFIDENCE
    else if duration_diff_seconds ≤ 300 ∨ duration_diff_percent ≤ 20/100 then
      MEDIUM_CONFIDENCE
    else if duration_diff_percent ≤ 50/100 then
      LOW_CONFIDENCE
    else
      VERY_LOW_CONFIDENCE
  else
    LOW_CONFIDENCE

/-- The walk over the index-sorted titles (`episode_matcher.py:71-153`):
pair each title with `tv_season.get_episode(current)`, set episode fields
and confidence, mark the episode assigned, increment. -/
def match_loop : TVSeason → Int → List Title → List Title × TVSeason
  | season, _, [] => ([], season)
  | season, current_episode_num, t :: rest =>
    match season.get_episode current_episode_num with
    | some episode =>
      let t := { t with
        episode_number := some episode.episode_number
        episode_title := some episode.episode_name
        confidence_score := duration_confidence episode t.duration_seconds }
      let season := season.mark_episode_assigned current_episode_num
      let (ts, season') := match_loop season (current_episode_num + 1) rest
      (t :: ts, season')
    | none =>
      let t := { t with
        episode_number := some current_episode_num
        episode_title := some ("Episode " ++ toString current_episode_num)
        confidence_score := VERY_LOW_CONFIDENCE }
      let season := season.mark_episode_assigned current_episode_num
      let (ts, season') := match_loop season (current_episode_num + 1) rest
      (t :: ts, season')

/-- `EpisodeMatcher.match_episodes`: early return on `titles == []`,
otherwise sort by `index` (stable) and walk sequentially from
`starting_episode` (when given, `is not None`) or
`tv_season.next_episode_number`.  Returns the sorted, updated titles and
the updated season. -/
def match_episodes (titles : List Title) (tv_season : TVSeason)
    (starting_episode : Option Int) : List Title × TVSeason :=
  if titles = [] then (titles, tv_season)
  else
    let current_episode_num :=
      match starting_episode with
      | some s => s
      | none => tv_season.next_episode_number
    let sorted_titles := sortStable (fun a b => a.index < b.index) titles
    match_loop tv_season current_episode_num sorted_titles

end EpisodeMatcher

/-! ## `services/preview_generator_db.py` -/

namespace PreviewGenerator

/-- Step 4 of `generate_preview` (`preview_generator_db.py:319-341`): the
episode matcher runs only under `if tv_season.episodes:`; the starting
episode is the disc's `starting_episode_number` when truthy, else the
season's `next_episode_number`. -/
def match_step (disc_starting_episode_number : Option Int)
    (main_titles : List Title) (tv_season : TVSeason) :
    List Title × TVSeason :=
  if tv_season.episodes ≠ [] then
    let start_episode :=
      if pyTruthyInt disc_starting_episode_number then
        disc_starting_episode_number.getD 0
      else tv_season.next_episode_number
    EpisodeMatcher.match_episodes main_titles tv_season (some start_episode)
  else (main_titles, tv_season)

/-- The TV-extra branch of step 5 of `generate_preview`
(`preview_generator_db.py:352-358`): the call
`generate_extra_path(show_name, season_number, title.name)` binds
`season_number` to the `extra_name` parameter and `title.name` to the
`media_type` parameter — positionally, exactly as in the source. -/
def tv_extra_proposed_path (base_path show_name : String) (season_number : Int)
    (title_name : String) : Except PyErr String :=
  MediaNamer.generate_extra_path base_path
    (.pstr show_name) (.pint season_number) (.pstr title_name) none none

/-- Step 8 of `generate_preview` (`preview_generator_db.py:424-433`): with
auto-approve, set `preview_status=APPROVED`, drop every extra title, and
select every remaining title; otherwise set `preview_status=PENDING`. -/
def finalize_preview (auto_approve_previews : Bool) (disc : Disc) : Disc :=
  if auto_approve_previews then
    let titles := disc.titles.filter (fun t => !t.is_extra)
    let titles := titles.map (fun t => { t with selected := true })
    { disc with preview_status := .approved, titles := titles }
  else
    { disc with preview_status := .pending }

end PreviewGenerator

/-! ## `services/discord_client.py` -/

namespace DiscordClient

/-- The methods defined on `DiscordClient`. -/
def method_names : List String :=
  ["__init__", "start", "stop", "is_available", "_send_webhook",
   "notify_job_complete", "notify_job_failed", "notify_file_organized",
   "notify_disc_detected", "get_status"]

end DiscordClient

/-! ## `services/worker_manager_db.py` and
`repositories/worker_repository.py` -/

/-- `worker_manager_db.py` `AssignmentStrategy`. -/
inductive AssignmentStrategy where
  | priority | round_robin | load_balance | fastest_first
deriving DecidableEq, Repr

namespace WorkerManager

/-- `WorkerRepository.get_available`: rows with `enabled` and status not
`offline`, ordered by priority ascending, then filtered by
`Worker.is_available`. -/
def get_available (workers : List Worker) : List Worker :=
  (sortStable (fun a b => a.priority < b.priority)
    (workers.filter (fun w => w.enabled && !(w.status = .offline)))).filter
    (fun w => w.is_available)

/-- The codec-requirement filter inside `select_worker_for_job`
(`worker_manager_db.py:235-240`): only `"hevc"` and `"av1"` are
recognised; Python's `if required_codec:` treats `None` and `""` as no
requirement. -/
def filter_codec (required_codec : Option String) (ws : List Worker) :
    List Worker :=
  if pyTruthyStr required_codec then
    if required_codec = some "hevc" then ws.filter (fun w => w.capabilities.hevc)
    else if required_codec = some "av1" then ws.filter (fun w => w.capabilities.av1)
    else ws
  else ws

/-- Sort key for the `FASTEST_FIRST` strategy:
`w.avg_transcode_time_seconds or float("inf")` — a zero average sorts
last. -/
def fastest_lt (a b : Worker) : Bool :=
  if a.avg_transcode_time_seconds = 0 then false
  else if b.avg_transcode_time_seconds = 0 then true
  else a.avg_transcode_time_seconds < b.avg_transcode_time_seconds

/-- `WorkerManager.select_worker_for_job` (`worker_manager_db.py:226-271`).
`workers` is the registered-worker table in insertion order; returns the
selected worker and the updated round-robin cursor. -/
def select_worker_for_job (strategy : AssignmentStrategy) (rr_index : Nat)
    (workers : List Worker) (prefer_gpu : Bool)
    (required_codec : Option String) : Option Worker × Nat :=
  let available := get_available workers
  if available = [] then (none, rr_index)
  else
    let available := filter_codec required_codec available
    if available = [] then (none, rr_index)
    else
      let available :=
        if prefer_gpu then
          let gpu_workers := available.filter (fun w => w.has_gpu)
          if gpu_workers ≠ [] then gpu_workers else available
        else available
      match strategy with
      | .priority => (available.head?, rr_index)
      | .round_robin =>
        let i := (rr_index + 1) % available.length
        (available[i]?, i)
      | .load_balance =>
        ((sortStable (fun a b => a.current_jobs.length < b.current_jobs.length)
          available).head?, rr_index)
      | .fastest_first =>
        ((sortStable fastest_lt available).head?, rr_index)

/-- `WorkerRepository.mark_stale_workers_offline`: every non-offline worker
whose `last_heartbeat < now - timeout` is set offline; its nonempty
`current_jobs` list is collected for failover and cleared.  Returns
(count, orphaned `(worker_id, job_ids)` pairs, updated workers). -/
def mark_stale_workers_offline (now timeout_seconds : Int)
    (workers : List Worker) :
    Nat × List (String × List String) × List Worker :=
  let cutoff := now - timeout_seconds
  workers.foldr
    (fun w (acc : Nat × List (String × List String) × List Worker) =>
      let (count, orphans, rest) := acc
      if !(w.status = .offline) && w.last_heartbeat < cutoff then
        let orphans' :=
          if w.current_jobs ≠ [] then (w.worker_id, w.current_jobs) :: orphans
          else orphans
        (count + 1, orphans', { w with status := .offline, current_jobs := [] } :: rest)
      else (count, orphans, w :: rest))
    (0, [], [])

/-- Modelled from the spec: `JobQueue.reset_orphaned_jobs` is *called* by
`WorkerManager._handle_worker_failover` (`worker_manager_db.py:321`) but is
not defined anywhere in the repository.  Per the spec's failover contract
it would reset each orphaned job to `pending` with
`assigned_agent_id=null` and `requires_approval=true`, returning the reset
jobs. -/
def reset_orphaned_jobs_spec (jobs : List (String × Job))
    (job_ids : List String) : List (String × Job) × List Job :=
  let jobs' := jobs.map (fun p =>
    if p.1 ∈ job_ids then
      (p.1, { p.2 with
        status := JobStatus.pending
        assigned_agent_id := none
        requires_approval := true })
    else p)
  (jobs', (jobs'.filter (fun p => p.1 ∈ job_ids)).map (fun p => p.2))

/-- `WorkerManager._handle_worker_failover` (`worker_manager_db.py:313`):
guards on `self._job_queue`, then accesses
`self._job_queue.reset_orphaned_jobs` — an attribute `JobQueue` does not
define, so the access raises `AttributeError`.  Were the method present,
it would reset the jobs and (inside a `try`) call
`discord_client.notify_worker_failover`, which `DiscordClient` does not
define either (that `AttributeError` is caught and only logged). -/
def handle_worker_failover (job_queue_set discord_set : Bool)
    (jobs : List (String × Job)) (job_ids : List String) :
    Except PyErr (List (String × Job) × List String) :=
  if job_queue_set then
    if "reset_orphaned_jobs" ∈ JobQueue.method_names then
      let (jobs', reset_jobs) := reset_orphaned_jobs_spec jobs job_ids
      let notifications :=
        if discord_set ∧ reset_jobs ≠ [] then
          if "notify_worker_failover" ∈ DiscordClient.method_names then
            ["worker_failover"]
          else []
        else []
      .ok (jobs', notifications)
    else .error .attributeError
  else .ok (jobs, [])

/-- The failover loop at the end of `_mark_stale_workers`
(`worker_manager_db.py:306-310`): handles each orphaned worker in turn; an
uncaught exception aborts the loop (it propagates to the health-check
loop, which only logs it). -/
def failover_loop (job_queue_set discord_set : Bool) :
    List (String × List String) → List (String × Job) →
    List (String × Job) × List String × Option PyErr
  | [], jobs => (jobs, [], none)
  | (_, job_ids) :: rest, jobs =>
    if job_ids ≠ [] then
      match handle_worker_failover job_queue_set discord_set jobs job_ids with
      | .error e => (jobs, [], some e)
      | .ok (jobs', notes) =>
        let (jobs'', notes', err) := failover_loop job_queue_set discord_set rest jobs'
        (jobs'', notes ++ notes', err)
    else failover_loop job_queue_set discord_set rest jobs

/-- `WorkerManager._mark_stale_workers`: mark stale workers offline and
commit, then run failover for the orphaned jobs.  The worker-table updates
are committed before the failover loop runs, so they persist even when the
loop raises.  Returns (workers, jobs, emitted notifications, error). -/
def mark_stale_workers (now timeout_seconds : Int)
    (job_queue_set discord_set : Bool) (workers : List Worker)
    (jobs : List (String × Job)) :
    List Worker × List (String × Job) × List String × Option PyErr :=
  let (count, orphaned_jobs, workers') :=
    mark_stale_workers_offline now timeout_seconds workers
  if count > 0 then
    let (jobs', notes, err) := failover_loop job_queue_set discord_set orphaned_jobs jobs
    (workers', jobs', notes, err)
  else (workers', jobs, [], none)

end WorkerManager

/-! ## `boz_agent/services/job_runner.py` -/

namespace JobRunner

/-- A call the agent makes while executing a job: a `PATCH` of the job's
status to the coordinator, or the launch of the MakeMKV rip subprocess. -/
inductive AgentCall where
  | update_job_status (status : String) (progress : Option ℚ) (error : Option String)
  | rip_title
deriving DecidableEq, Repr

/-- The status carried by a status-update call. -/
def AgentCall.statusOf : AgentCall → Option String
  | .update_job_status s _ _ => some s
  | .rip_title => none

/-- The disc fields `_execute_rip_job` reads from the coordinator's
response; `preview_status` defaults to `"pending"`
(`disc.get("preview_status", "pending")`). -/
structure DiscView where
  preview_status : String := "pending"
  drive : String := "D:"
deriving DecidableEq, Repr

/-- `JobRunner._execute_rip_job` (`job_runner.py:151`) up to the subprocess
launch: returns the coordinator calls it makes and the error it raises, if
any.  A `pending` preview resets the job to `assigned` (progress 0) and
returns; a `rejected` preview raises; otherwise the rip subprocess is
launched. -/
def execute_rip_job (job_disc_id : String) (disc : Option DiscView) :
    List AgentCall × Option String :=
  match disc with
  | none => ([], some ("Disc not found: " ++ job_disc_id))
  | some d =>
    if d.preview_status = "pending" then
      ([.update_job_status "assigned" (some 0) none], none)
    else if d.preview_status = "rejected" then
      ([], some "Disc preview was rejected, cannot rip")
    else
      ([.rip_title], none)

/-- `JobRunner._execute_job` for a rip job (`job_runner.py:121-148`): sets
the job `running` (progress 0) first, then runs `_execute_rip_job`; an
exception from the body is caught and reported as a `failed` update. -/
def execute_job_rip (job_disc_id : String) (disc : Option DiscView) :
    List AgentCall :=
  AgentCall.update_job_status "running" (some 0) none ::
    (match execute_rip_job job_disc_id disc with
     | (calls, none) => calls
     | (calls, some e) => calls ++ [.update_job_status "failed" none (some e)])

end JobRunner

/-! ## Fixtures: concrete states used by the claim theorems -/

/-- A pending transcode job awaiting approval. -/
def approvalJob : Job :=
  { job_id := "job-1", job_type := .transcode, status := .pending,
    requires_approval := true, output_name := some "Show - S01E01.mkv" }

/-- A registered standalone worker (no `agent_id`). -/
def approvalWorker : Worker := { worker_id := "worker-1" }

/-- A worker that stopped heartbeating while holding job `"j1"`. -/
def staleWorker : Worker :=
  { worker_id := "w1", current_jobs := ["j1"], last_heartbeat := 0 }

/-- The running transcode job held by `staleWorker`. -/
def orphanJob : Job :=
  { job_id := "j1", job_type := .transcode, status := .running,
    assigned_agent_id := some "w1" }

/-- A disc whose preview is still pending, as the agent sees it. -/
def pendingDisc : JobRunner.DiscView := {}

/-! ## Claim theorems -/

/-- **C1** (code_bug evidence).  The claim says an `approve` call on a
pending, approval-requiring transcode job succeeds and assigns the job.
In the code, `JobQueue.approve_job` passes four positional arguments
`(job_id, agent_id, preset, output_name)` to `JobRepository.approve_job`,
whose parameter list is `(job_id, agent_id, preset)`; Python raises
`TypeError` on every call, the handler answers HTTP 500, and the job stays
`pending` untouched.  The repository body itself — third conjunct —
implements exactly the update the claim (and the spec) describe, so the
claim is right about the intent and the call chain is the slip. -/
theorem C1_approve_job_raises_type_error :
    JobsApi.approve_job 5 (some approvalJob) (some approvalWorker)
        "H.265 MKV 1080p30" = (.serverError, some approvalJob) ∧
    JobQueue.approve_job 5 (some approvalJob) "worker-1" "H.265 MKV 1080p30"
        none = .error .typeError ∧
    JobRepository.approve_job 5 (some approvalJob) "worker-1" "H.265 MKV 1080p30" =
      some { approvalJob with
        preset := some "H.265 MKV 1080p30"
        assigned_agent_id := some "worker-1"
        requires_approval := false
        status := JobStatus.assigned
        assigned_at := some 5 } := by
  refine ⟨rfl, rfl, rfl⟩

/-- **C2** (code_bug evidence).  The staleness sweep marks `w1` offline and
evacuates its `current_jobs`, but the failover routine then accesses
`JobQueue.reset_orphaned_jobs`, a method the class does not define:
`AttributeError` aborts the sweep.  Job `j1`, which `w1` held, is left
`running` with its stale assignment — neither `pending` with
`requires_approval` nor terminal — and no failover notification is
emitted, refuting the claim.  The last conjunct shows the spec's intended
reset (modelled as `reset_orphaned_jobs_spec`) would have produced exactly
the state the claim demands. -/
theorem C2_stale_sweep_failover_raises_attribute_error :
    WorkerManager.mark_stale_workers 1000 91 true true [staleWorker]
        [("j1", orphanJob)] =
      ([{ staleWorker with status := .offline, current_jobs := [] }],
        [("j1", orphanJob)], [], some .attributeError) ∧
    orphanJob.status = JobStatus.running ∧
    orphanJob.requires_approval = false ∧
    (WorkerManager.reset_orphaned_jobs_spec [("j1", orphanJob)] ["j1"]).1 =
      [("j1", { orphanJob with
        status := JobStatus.pending
        assigned_agent_id := none
        requires_approval := true })] := by
  refine ⟨by decide, rfl, rfl, by decide⟩

/-- **C4** (code_bug evidence).  For a TV extra, `generate_preview` calls
`generate_extra_path(show_name, season_number, title.name)` — positional
binding makes `season_number` the `extra_name` argument and the title's
name the `media_type` argument, so `sanitize_filename` receives an `int`
and raises `TypeError`; no `proposed_path` of the claimed shape is ever
produced.  The second conjunct shows that `generate_extra_path`, called as
its own signature and docstring intend, does produce the claimed
`<Show>/Season NN/Extras/<ExtraName>.mkv` shape (under the configured base
directory), so the claim matches the intent and the call site is the
slip. -/
theorem C4_tv_extra_path_raises_type_error :
    PreviewGenerator.tv_extra_proposed_path "/data/output" "Breaking Bad" 1
        "Deleted Scenes" = .error .typeError ∧
    MediaNamer.generate_extra_path "/data/output" (.pstr "Breaking Bad")
        (.pstr "Deleted Scenes") (.pstr "tv_show") none (some 1) =
      .ok "/data/output/Breaking Bad/Season 01/Extras/Deleted Scenes.mkv" := by
  refine ⟨rfl, rfl⟩

/-- **C3** counterexample.  Picking up a rip job whose disc preview is
still pending, the agent's status updates are `running` (set by
`_execute_job` *before* the preview check) and then `assigned` — never
`pending`.  So the claim fails twice at this input: the job is not demoted
to `pending`, and a rip job of a disc with `preview_status ≠ approved`
does pass through `running`.  (The rip subprocess is indeed not
launched.) -/
theorem C3_counterexample_demotes_to_assigned_not_pending :
    (JobRunner.execute_job_rip "disc-1" (some pendingDisc)).map
        JobRunner.AgentCall.statusOf = [some "running", some "assigned"] ∧
    some "pending" ∉ (JobRunner.execute_job_rip "disc-1" (some pendingDisc)).map
        JobRunner.AgentCall.statusOf ∧
    some "running" ∈ (JobRunner.execute_job_rip "disc-1" (some pendingDisc)).map
        JobRunner.AgentCall.statusOf ∧
    JobRunner.AgentCall.rip_title ∉ JobRunner.execute_job_rip "disc-1" (some pendingDisc) := by
  refine ⟨rfl, by decide, by decide, by decide⟩

/-- **C3** as amended: when the target disc's preview is pending at
pickup, the agent — having already marked the job `running` — resets its
status to `assigned` with progress 0 and returns without launching the rip
subprocess; the job therefore transiently passes through `running`, but
the ripper is never started while the preview is undecided. -/
theorem C3_amended_pending_preview_resets_to_assigned
    (job_disc_id : String) (d : JobRunner.DiscView)
    (h : d.preview_status = "pending") :
    JobRunner.execute_job_rip job_disc_id (some d) =
      [.update_job_status "running" (some 0) none,
       .update_job_status "assigned" (some 0) none] ∧
    JobRunner.AgentCall.rip_title ∉ JobRunner.execute_job_rip job_disc_id (some d) := by
  constructor
  · simp [JobRunner.execute_job_rip, JobRunner.execute_rip_job, h]
  · simp [JobRunner.execute_job_rip, JobRunner.execute_rip_job, h]

/-- Witness for `C3_amended_pending_preview_resets_to_assigned` at a
concrete disc. -/
theorem C3_amended_pending_preview_resets_to_assigned_witness :
    JobRunner.execute_job_rip "disc-1" (some pendingDisc) =
      [.update_job_status "running" (some 0) none,
       .update_job_status "assigned" (some 0) none] ∧
    JobRunner.AgentCall.rip_title ∉ JobRunner.execute_job_rip "disc-1" (some pendingDisc) :=
  C3_amended_pending_preview_resets_to_assigned "disc-1" pendingDisc rfl

/-- A job that already failed: per the claim a terminal job that cancel
must reject. -/
def failedJob : Job := { job_id := "j2", job_type := .rip, status := .failed }

/-- **C8** counterexample.  The cancel endpoint guards only on `COMPLETED`
and `CANCELLED`; a job in the terminal status `failed` is accepted and
transitioned to `cancelled`, refuting "for every job in a terminal status
… cancel fails with a validation error and leaves the job unchanged". -/
theorem C8_counterexample_failed_job_is_cancelled :
    failedJob.status = JobStatus.failed ∧
    JobsApi.cancel_job 7 (some failedJob) =
      (.ok, some { failedJob with status := JobStatus.cancelled }) := by
  refine ⟨rfl, rfl⟩

/-- **C8** as amended: `cancel` fails with a 400 validation error and
leaves the job unchanged exactly when the status is `completed` or
`cancelled`; every other job — including one in the terminal status
`failed` — is transitioned to `cancelled`. -/
theorem C8_amended_cancel_guards_completed_and_cancelled_only
    (now : Nat) (j : Job) :
    ((j.status = JobStatus.completed ∨ j.status = JobStatus.cancelled) →
      JobsApi.cancel_job now (some j) = (.err 400 "Job already finished", some j)) ∧
    (j.status ≠ JobStatus.completed → j.status ≠ JobStatus.cancelled →
      ∃ j', JobsApi.cancel_job now (some j) = (.ok, some j') ∧
        j'.status = JobStatus.cancelled) := by
  constructor
  · intro h
    simp [JobsApi.cancel_job, h]
  · intro h1 h2
    refine ⟨JobRepository.update_status now j JobStatus.cancelled none none none,
      ?_, ?_⟩
    · simp [JobsApi.cancel_job, h1, h2]
    · simp [JobRepository.update_status, pyTruthyStr]

/-- Witness for `C8_amended_cancel_guards_completed_and_cancelled_only` on
the concrete failed job. -/
theorem C8_amended_cancel_guards_witness :
    ∃ j', JobsApi.cancel_job 7 (some failedJob) = (.ok, some j') ∧
      j'.status = JobStatus.cancelled :=
  (C8_amended_cancel_guards_completed_and_cancelled_only 7 failedJob).2
    (by decide) (by decide)

/-- **C10** (confirmed).  With auto-approve configured, finalizing a
preview sets `preview_status=approved`, removes every `is_extra` title and
marks every remaining title `selected`; without auto-approve it sets
`preview_status=pending` and leaves the title list — including `selected`
flags — untouched. -/
theorem C10_finalize_preview_frame_effect (disc : Disc) :
    (PreviewGenerator.finalize_preview true disc).preview_status =
      PreviewStatus.approved ∧
    (PreviewGenerator.finalize_preview true disc).titles =
      (disc.titles.filter (fun t => !t.is_extra)).map
        (fun t => { t with selected := true }) ∧
    (PreviewGenerator.finalize_preview false disc).preview_status =
      PreviewStatus.pending ∧
    (PreviewGenerator.finalize_preview false disc).titles = disc.titles := by
  refine ⟨rfl, rfl, rfl, rfl⟩

/-- The amended confidence table for C5, written from the claim's wording
with the one forced change: a pairing whose episode has no (or a zero,
hence falsy) runtime scores Low (0.40), not Very Low (0.30).  The
percentage tiers are stated multiplicatively; when the expected duration
is not positive the percentage tiers are vacuous (the code pins the
percentage to 1). -/
def spec_confidence (ep : TVEpisode) (actual_seconds : Int) : ℚ :=
  match ep.runtime with
  | none => 40/100
  | some r =>
    if r = 0 then 40/100
    else
      let expected : ℚ := ((r : ℚ) * 60)
      let diff : ℚ := |(actual_seconds : ℚ) - expected|
      if diff ≤ 120 ∨ (0 < expected ∧ 10 * diff ≤ expected) then 95/100
      else if diff ≤ 300 ∨ (0 < expected ∧ 5 * diff ≤ expected) then 70/100
      else if 0 < expected ∧ 2 * diff ≤ expected then 40/100
      else 30/100

theorem duration_confidence_eq_spec (ep : TVEpisode) (actual_seconds : Int) :
    EpisodeMatcher.duration_confidence ep actual_seconds =
      spec_confidence ep actual_seconds := by
  unfold EpisodeMatcher.duration_confidence spec_confidence
  rcases hrt : ep.runtime with _ | r
  · simp [pyTruthyInt, EpisodeMatcher.LOW_CONFIDENCE]
  · by_cases hr : r = 0
    · simp [pyTruthyInt, hr, EpisodeMatcher.LOW_CONFIDENCE]
    · have hpt : pyTruthyInt (some r) = true := by simp [pyTruthyInt, hr]
      simp only [hpt, if_pos, hr, if_neg, Option.getD]
      set expected : ℚ := ((r : ℚ) * 60) with hexp_def
      set diff : ℚ := |(actual_seconds : ℚ) - expected| with hdiff_def
      have hdiff_nonneg : 0 ≤ diff := abs_nonneg _
      by_cases hpos : (0 : ℚ) < expected
      · have e1 : (diff / expected ≤ 10/100) ↔ (10 * diff ≤ expected) := by
          rw [div_le_iff₀ hpos]
          constructor <;> intro h <;> nlinarith
        have e2 : (diff / expected ≤ 20/100) ↔ (5 * diff ≤ expected) := by
          rw [div_le_iff₀ hpos]
          constructor <;> intro h <;> nlinarith
        have e3 : (diff / expected ≤ 50/100) ↔ (2 * diff ≤ expected) := by
          rw [div_le_iff₀ hpos]
          constructor <;> intro h <;> nlinarith
        simp only [gt_iff_lt, hpos, if_true, hr, if_false, ite_false, ite_true]
        simp only [e1, e2, e3, true_and]
        simp [EpisodeMatcher.HIGH_CONFIDENCE, EpisodeMatcher.MEDIUM_CONFIDENCE,
          EpisodeMatcher.LOW_CONFIDENCE, EpisodeMatcher.VERY_LOW_CONFIDENCE]
      · have h1 : ¬((1 : ℚ) ≤ 10/100) := by norm_num
        have h2 : ¬((1 : ℚ) ≤ 20/100) := by norm_num
        have h3 : ¬((1 : ℚ) ≤ 50/100) := by norm_num
        simp only [gt_iff_lt, hpos, if_false, ite_false, ite_true, hr,
          false_and, or_false, h1, h2, h3]
        simp [EpisodeMatcher.HIGH_CONFIDENCE, EpisodeMatcher.MEDIUM_CONFIDENCE,
          EpisodeMatcher.LOW_CONFIDENCE, EpisodeMatcher.VERY_LOW_CONFIDENCE]

/-- A 45-minute main title. -/
def mainTitle : Title := { index := 0, name := "Title 1", duration_seconds := 2700 }

/-- Episode 1 with no runtime metadata. -/
def noRuntimeEpisode : TVEpisode :=
  { episode_number := 1, episode_name := "Pilot", season_number := 1, runtime := none }

/-- A season whose only known episode has no runtime. -/
def noRuntimeSeason : TVSeason :=
  { season_id := "show:s1", show_name := "Show", season_number := 1,
    episodes := [noRuntimeEpisode] }

/-- **C5** counterexample.  A title paired with an episode that has no
runtime metadata receives confidence 0.40 (Low), not the 0.30 (Very Low)
the claim asserts for "every other case — including when the episode has
no runtime metadata". -/
theorem C5_counterexample_no_runtime_scores_low :
    ((EpisodeMatcher.match_episodes [mainTitle] noRuntimeSeason none).1.map
        (fun t => t.confidence_score)) = [40/100] ∧
    (40 : ℚ)/100 ≠ 30/100 := by
  refine ⟨rfl, by norm_num⟩

/-- **C5** as amended: for a title paired during matching with an episode
(`get_episode` hit), the confidence is 0.95 when the duration difference
is ≤ 120 s or ≤ 10 %, else 0.70 when ≤ 300 s or ≤ 20 %, else 0.40 when
≤ 50 %, else 0.30 — and an episode with no (or zero) runtime scores 0.40
(Low), not 0.30. -/
theorem C5_amended_pair_confidence (t : Title) (tv_season : TVSeason)
    (ep : TVEpisode) (s : Int) (h : tv_season.get_episode s = some ep) :
    ((EpisodeMatcher.match_episodes [t] tv_season (some s)).1.map
        (fun t => t.confidence_score)) = [spec_confidence ep t.duration_seconds] := by
  simp [EpisodeMatcher.match_episodes, sortStable, insertStable,
    EpisodeMatcher.match_loop, h, duration_confidence_eq_spec]

/-- Witness for `C5_amended_pair_confidence` on the concrete
no-runtime pairing. -/
theorem C5_amended_pair_confidence_witness :
    ((EpisodeMatcher.match_episodes [mainTitle] noRuntimeSeason (some 1)).1.map
        (fun t => t.confidence_score)) =
      [spec_confidence noRuntimeEpisode mainTitle.duration_seconds] :=
  C5_amended_pair_confidence mainTitle noRuntimeSeason noRuntimeEpisode 1 (by decide)

/-- Sequential assignment from the claim's wording for C6: each surviving
main title gets the next episode number, a placeholder episode title and
Very-Low (0.30) confidence. -/
def seq_assign_spec (s : Int) : List Title → List Title
  | [] => []
  | t :: rest =>
    { t with
      episode_number := some s
      episode_title := some ("Episode " ++ toString s)
      confidence_score := 30/100 } :: seq_assign_spec (s + 1) rest

theorem episodes_mark_episode_assigned (season : TVSeason) (n : Int) :
    (season.mark_episode_assigned n).episodes = season.episodes := by
  unfold TVSeason.mark_episode_assigned
  split <;> rfl

theorem match_loop_no_episodes :
    ∀ (l : List Title) (season : TVSeason) (n : Int), season.episodes = [] →
      (EpisodeMatcher.match_loop season n l).1 = seq_assign_spec n l := by
  intro l
  induction l with
  | nil =>
    intro season n h
    simp [EpisodeMatcher.match_loop, seq_assign_spec]
  | cons t rest ih =>
    intro season n h
    have hge : season.get_episode n = none := by
      simp [TVSeason.get_episode, h]
    have hmark : (season.mark_episode_assigned n).episodes = [] := by
      rw [episodes_mark_episode_assigned]; exact h
    simp only [EpisodeMatcher.match_loop, hge, seq_assign_spec]
    simp [ih (season.mark_episode_assigned n) (n + 1) hmark,
      EpisodeMatcher.VERY_LOW_CONFIDENCE]

/-- A main title surviving the extras filter. -/
def survivingTitle : Title := { index := 1, name := "Main", duration_seconds := 2700 }

/-- A TV season whose metadata lookup produced no episodes. -/
def emptySeason : TVSeason :=
  { season_id := "show:s1", show_name := "Show", season_number := 1, episodes := [] }

/-- **C6** counterexample.  In the preview pipeline, step 4 runs the
episode matcher only under `if tv_season.episodes:`; with `episodes=[]`
the matcher is skipped entirely, so the surviving main title keeps
`episode_number = none` — it is *not* assigned a sequential episode
number, refuting the claim's second half. -/
theorem C6_counterexample_empty_episodes_skips_matching :
    PreviewGenerator.match_step none [survivingTitle] emptySeason =
      ([survivingTitle], emptySeason) ∧
    survivingTitle.episode_number = none := by
  refine ⟨rfl, rfl⟩

/-- **C6** as amended: `match_episodes` itself handles both boundaries —
`titles=[]` is a no-op, and with `episodes=[]` it would assign sequential
numbers from the start with Very-Low (0.30) confidence — but the preview
pipeline's step-4 guard (`if tv_season.episodes:`) skips the matcher
whenever the season record has `episodes=[]`, so in the pipeline the
surviving main titles are left without episode numbers. -/
theorem C6_amended_empty_boundaries (titles : List Title)
    (tv_season : TVSeason) (s : Int) (d starting : Option Int)
    (h : tv_season.episodes = []) :
    EpisodeMatcher.match_episodes [] tv_season starting = ([], tv_season) ∧
    (EpisodeMatcher.match_episodes titles tv_season (some s)).1 =
      seq_assign_spec s (sortStable (fun a b => a.index < b.index) titles) ∧
    PreviewGenerator.match_step d titles tv_season = (titles, tv_season) := by
  refine ⟨by simp [EpisodeMatcher.match_episodes], ?_, ?_⟩
  · by_cases ht : titles = []
    · subst ht
      simp [EpisodeMatcher.match_episodes, sortStable, seq_assign_spec]
    · simp only [EpisodeMatcher.match_episodes, ht, if_neg]
      simp [match_loop_no_episodes _ _ _ h]
  · simp [PreviewGenerator.match_step, h]

/-- Witness for `C6_amended_empty_boundaries` on the concrete
empty-episodes season. -/
theorem C6_amended_empty_boundaries_witness :
    EpisodeMatcher.match_episodes [] emptySeason none = ([], emptySeason) ∧
    (EpisodeMatcher.match_episodes [survivingTitle] emptySeason (some 1)).1 =
      seq_assign_spec 1
        (sortStable (fun a b => a.index < b.index) [survivingTitle]) ∧
    PreviewGenerator.match_step none [survivingTitle] emptySeason =
      ([survivingTitle], emptySeason) :=
  C6_amended_empty_boundaries [survivingTitle] emptySeason 1 none none rfl

/-- An enabled, available worker with neither GPU nor HEVC/AV1 codec
capability. -/
def cpuWorker : Worker := { worker_id := "w1" }

/-- **C7** counterexample.  With one available worker lacking HEVC and
`required_codec="hevc"`, the selection returns no worker: the codec filter
empties the pool and the code returns `None` instead of falling back to
the unfiltered available set as the claim asserts. -/
theorem C7_counterexample_codec_filter_returns_none :
    WorkerManager.get_available [cpuWorker] = [cpuWorker] ∧
    WorkerManager.select_worker_for_job .priority 0 [cpuWorker] false
      (some "hevc") = (none, 0) := by
  refine ⟨rfl, rfl⟩

theorem head?_mem_of_ne_nil {l : List α} (h : l ≠ []) :
    ∃ a, l.head? = some a ∧ a ∈ l := by
  cases l with
  | nil => exact absurd rfl h
  | cons x xs => exact ⟨x, rfl, List.mem_cons_self x xs⟩

/-- **C7** as amended: the GPU preference does fall back — when
`prefer_gpu=true` and no available worker has a GPU, the selection still
returns some worker from the available set — but the codec requirement
does not: when a codec of `"hevc"` is required and no available worker
supports it, no worker is selected (the call returns `None`). -/
theorem C7_amended_gpu_falls_back_codec_does_not
    (strategy : AssignmentStrategy) (rr_index : Nat) (workers : List Worker) :
    ((WorkerManager.get_available workers ≠ [] ∧
        ∀ w ∈ WorkerManager.get_available workers, w.has_gpu = false) →
      ∃ w, w ∈ WorkerManager.get_available workers ∧
        (WorkerManager.select_worker_for_job strategy rr_index workers true
          none).1 = some w) ∧
    ((∀ w ∈ WorkerManager.get_available workers, w.capabilities.hevc = false) →
      (WorkerManager.select_worker_for_job strategy rr_index workers true
        (some "hevc")).1 = none) := by
  constructor
  · rintro ⟨hne, hgpu⟩
    have hfc : WorkerManager.filter_codec none
        (WorkerManager.get_available workers) =
        WorkerManager.get_available workers := by
      simp [WorkerManager.filter_codec, pyTruthyStr]
    have hgf : (WorkerManager.get_available workers).filter
        (fun w => w.has_gpu) = [] := by
      rw [List.filter_eq_nil_iff]
      intro a ha
      simp [hgpu a ha]
    unfold WorkerManager.select_worker_for_job
    rw [if_neg hne, hfc, if_neg hne, hgf]
    simp only [ne_eq, not_true_eq_false, if_false, ite_false, ite_true]
    cases strategy with
    | priority =>
      obtain ⟨w, hw, hmem⟩ := head?_mem_of_ne_nil hne
      exact ⟨w, hmem, hw⟩
    | round_robin =>
      have hlen : 0 < (WorkerManager.get_available workers).length :=
        List.length_pos.mpr hne
      have hi : (rr_index + 1) % (WorkerManager.get_available workers).length <
          (WorkerManager.get_available workers).length :=
        Nat.mod_lt _ hlen
      refine ⟨(WorkerManager.get_available workers).get
        ⟨(rr_index + 1) % (WorkerManager.get_available workers).length, hi⟩,
        List.get_mem _ _ hi, ?_⟩
      simp [List.getElem?_eq_getElem hi]
    | load_balance =>
      have hsne : sortStable
          (fun a b => a.current_jobs.length < b.current_jobs.length)
          (WorkerManager.get_available workers) ≠ [] :=
        sortStable_ne_nil _ _ hne
      obtain ⟨w, hw, hmem⟩ := head?_mem_of_ne_nil hsne
      exact ⟨w, (mem_sortStable _ _ _).mp hmem, hw⟩
    | fastest_first =>
      have hsne : sortStable WorkerManager.fastest_lt
          (WorkerManager.get_available workers) ≠ [] :=
        sortStable_ne_nil _ _ hne
      obtain ⟨w, hw, hmem⟩ := head?_mem_of_ne_nil hsne
      exact ⟨w, (mem_sortStable _ _ _).mp hmem, hw⟩
  · intro hcodec
    unfold WorkerManager.select_worker_for_job
    by_cases hne : WorkerManager.get_available workers = []
    · rw [if_pos hne]
    · rw [if_neg hne]
      have hfc : WorkerManager.filter_codec (some "hevc")
          (WorkerManager.get_available workers) = [] := by
        simp [WorkerManager.filter_codec, pyTruthyStr, List.filter_eq_nil_iff]
        intro a ha
        simp [hcodec a ha]
      rw [hfc]
      simp

/-- Witness for `C7_amended_gpu_falls_back_codec_does_not` on the concrete
CPU-only worker pool. -/
theorem C7_amended_gpu_falls_back_codec_does_not_witness :
    (∃ w, w ∈ WorkerManager.get_available [cpuWorker] ∧
      (WorkerManager.select_worker_for_job .priority 0 [cpuWorker] true
        none).1 = some w) ∧
    (WorkerManager.select_worker_for_job .priority 0 [cpuWorker] true
      (some "hevc")).1 = none :=
  ⟨(C7_amended_gpu_falls_back_codec_does_not .priority 0 [cpuWorker]).1
      ⟨by decide, by decide⟩,
    (C7_amended_gpu_falls_back_codec_does_not .priority 0 [cpuWorker]).2
      (by decide)⟩

/-! ### Sanitizer lemmas (for C9) -/

namespace MediaNamer

/-- The adjacent-pair predicate "not both whitespace". -/
def NoTwoSpaces (a b : Char) : Prop :=
  ¬(isPySpace a = true ∧ isPySpace b = true)

theorem mem_collapseRuns : ∀ l : List Char, ∀ c ∈ collapseRuns l, c ∈ l := by
  intro l
  induction l with
  | nil => simp [collapseRuns]
  | cons x xs ih =>
    cases xs with
    | nil => simp [collapseRuns]
    | cons y ys =>
      intro c hc
      simp only [collapseRuns] at hc
      by_cases h : isPySpace x && isPySpace y
      · rw [if_pos h] at hc
        exact List.mem_cons_of_mem _ (ih c hc)
      · rw [if_neg h] at hc
        rcases List.mem_cons.mp hc with rfl | hc'
        · exact List.mem_cons_self _ _
        · exact List.mem_cons_of_mem _ (ih c hc')

theorem head?_collapseRuns_of_not_space {y : Char} (ys : List Char)
    (hy : ¬ isPySpace y = true) :
    (collapseRuns (y :: ys)).head? = some y := by
  cases ys with
  | nil => rfl
  | cons z zs =>
    simp only [collapseRuns]
    rw [if_neg (by simp [hy])]
    rfl

theorem chain'_collapseRuns : ∀ l : List Char, (collapseRuns l).Chain' NoTwoSpaces := by
  intro l
  induction l with
  | nil => simp [collapseRuns]
  | cons x xs ih =>
    cases xs with
    | nil => simp [collapseRuns]
    | cons y ys =>
      simp only [collapseRuns]
      by_cases h : isPySpace x && isPySpace y
      · rw [if_pos h]
        exact ih
      · rw [if_neg h]
        rw [List.chain'_cons']
        refine ⟨?_, ih⟩
        intro b hb
        by_cases hx : isPySpace x = true
        · have hy : ¬ isPySpace y = true := by
            intro hy
            exact h (by simp [hx, hy])
          rw [head?_collapseRuns_of_not_space ys hy] at hb
          cases hb
          intro hcon
          exact hy hcon.2
        · intro hcon
          exact hx hcon.1

theorem isPySpace_toSpace (c : Char) : isPySpace (toSpace c) = isPySpace c := by
  unfold toSpace
  by_cases h : isPySpace c
  · rw [if_pos h, h]
    rfl
  · rw [if_neg h]

theorem chain'_map_toSpace {l : List Char} (h : l.Chain' NoTwoSpaces) :
    (l.map toSpace).Chain' NoTwoSpaces := by
  rw [List.chain'_map]
  refine h.imp ?_
  intro a b hab
  unfold NoTwoSpaces at hab ⊢
  rw [isPySpace_toSpace, isPySpace_toSpace]
  exact hab

theorem chain'_dropWhile {R : Char → Char → Prop} (p : Char → Bool) :
    ∀ l : List Char, l.Chain' R → (l.dropWhile p).Chain' R := by
  intro l
  induction l with
  | nil => simp
  | cons x xs ih =>
    intro h
    rw [List.dropWhile_cons]
    by_cases hp : p x = true
    · rw [if_pos hp]
      exact ih h.tail
    · rw [if_neg hp]
      exact h

theorem noTwoSpaces_symm {a b : Char} (h : NoTwoSpaces a b) : NoTwoSpaces b a := by
  unfold NoTwoSpaces at h ⊢
  tauto

theorem chain'_reverse_noTwoSpaces {l : List Char}
    (h : l.Chain' NoTwoSpaces) : l.reverse.Chain' NoTwoSpaces := by
  rw [List.chain'_reverse]
  exact h.imp (fun a b hab => noTwoSpaces_symm hab)

theorem chain'_stripChars {l : List Char} (h : l.Chain' NoTwoSpaces) :
    (stripChars l).Chain' NoTwoSpaces := by
  unfold stripChars
  exact chain'_reverse_noTwoSpaces
    (chain'_dropWhile _ _ (chain'_reverse_noTwoSpaces (chain'_dropWhile _ _ h)))

theorem mem_stripChars {c : Char} {l : List Char} (h : c ∈ stripChars l) :
    c ∈ l := by
  unfold stripChars at h
  rw [List.mem_reverse] at h
  have h1 := (List.dropWhile_sublist (l := (l.dropWhile isPySpace).reverse)
    (p := isPySpace)).mem h
  rw [List.mem_reverse] at h1
  exact (List.dropWhile_sublist (l := l) (p := isPySpace)).mem h1

end MediaNamer

/-- **C9** counterexample.  The string `"?"` sanitizes to the empty
string, and the empty result is not rejected: `generate_movie_filename`
interpolates it and yields the degenerate filename `".mkv"`. -/
theorem C9_counterexample_empty_result_is_used :
    MediaNamer.sanitize_filename "?" = "" ∧
    MediaNamer.generate_movie_filename "?" none = ".mkv" := by
  refine ⟨rfl, rfl⟩

/-- **C9** as amended: the sanitizer removes every character of
`<>:"/\|?*`, turns each whitespace run into a single space (no two
adjacent whitespace characters survive, and every surviving whitespace
character is a plain space) and strips the ends; an input that sanitizes
to the empty string is *not* rejected — the empty string is used as-is,
e.g. a movie filename becomes `".mkv"`. -/
theorem C9_amended_sanitizer_behaviour (s : String) :
    (∀ c, c ∈ (MediaNamer.sanitize_filename s).toList →
      c ∉ MediaNamer.invalidChars) ∧
    (MediaNamer.sanitize_filename s).toList.Chain' MediaNamer.NoTwoSpaces ∧
    (∀ c, c ∈ (MediaNamer.sanitize_filename s).toList →
      MediaNamer.isPySpace c = true → c = ' ') ∧
    (MediaNamer.sanitize_filename s = "" →
      MediaNamer.generate_movie_filename s none = ".mkv") := by
  have htl : (MediaNamer.sanitize_filename s).toList =
      MediaNamer.stripChars ((MediaNamer.collapseRuns
        (s.toList.filter (fun c => !(MediaNamer.invalidChars.contains c)))).map
          MediaNamer.toSpace) := rfl
  refine ⟨?_, ?_, ?_, ?_⟩
  · intro c hc
    rw [htl] at hc
    have hc2 := MediaNamer.mem_stripChars hc
    obtain ⟨c', hc', rfl⟩ := List.mem_map.mp hc2
    have hc3 := MediaNamer.mem_collapseRuns _ _ hc'
    have hc4 := (List.mem_filter.mp hc3).2
    have hninv : c' ∉ MediaNamer.invalidChars := by
      simpa using hc4
    unfold MediaNamer.toSpace
    by_cases hws : MediaNamer.isPySpace c' = true
    · rw [if_pos hws]
      decide
    · rw [if_neg hws]
      exact hninv
  · rw [htl]
    exact MediaNamer.chain'_stripChars
      (MediaNamer.chain'_map_toSpace (MediaNamer.chain'_collapseRuns _))
  · intro c hc hws
    rw [htl] at hc
    have hc2 := MediaNamer.mem_stripChars hc
    obtain ⟨c', _, rfl⟩ := List.mem_map.mp hc2
    unfold MediaNamer.toSpace at hws ⊢
    by_cases h : MediaNamer.isPySpace c' = true
    · rw [if_pos h]
    · rw [if_neg h] at hws ⊢
      exact absurd hws h
  · intro h
    unfold MediaNamer.generate_movie_filename
    rw [h]
    rfl

/-- Witness for `C9_amended_sanitizer_behaviour` at concrete inputs: the
no-invalid-character conjunct applied to `"a"`/`'a'`, and the
empty-is-used conjunct applied to `"?"`. -/
theorem C9_amended_sanitizer_behaviour_witness :
    ('a' ∉ MediaNamer.invalidChars) ∧
    MediaNamer.generate_movie_filename "?" none = ".mkv" :=
  ⟨(C9_amended_sanitizer_behaviour "a").1 'a' (by decide),
    (C9_amended_sanitizer_behaviour "?").2.2.2 (by decide)⟩

end BozRipper
